import Mathlib

set_option maxRecDepth 4000

/-!
Verification development for the grcp BGP control platform.

Shallow embedding of the core data model (grcp/core/model.py), the graph
store interface (grcp/core/graphdb.py), the query builder
(grcp/core/query.py), the router controller (grcp/core/controller.py),
the topology manager (grcp/core/topology.py) and the application
framework (grcp/app_manager.py), together with theorems settling the
specification claims about them.
-/

/-- A scalar item of a list-valued property (the data model only uses
lists of scalars: AS-path numbers, community strings). -/
inductive SVal where
  | s : String → SVal
  | n : Int → SVal
  | f : Rat → SVal
deriving DecidableEq, BEq, Repr

/-- Property values stored in the graph, mirroring the Python values the
code puts into node/edge properties: strings, integers, rationals (Python
floats) and lists of scalars. -/
inductive Val where
  | str : String → Val
  | num : Int → Val
  | flt : Rat → Val
  | lst : List SVal → Val
deriving DecidableEq, BEq, Repr

/-- Boolean equality of values (Cypher `=` on property values). -/
def Val.eqb (a b : Val) : Bool := a == b

/-- A property map (Python dict of property name to value), as passed to
and stored by the graph layer. -/
abbrev PropMap := List (String × Val)

/-- Dictionary lookup (`d.get(k)` / `d[k]`). -/
def pget (m : PropMap) (k : String) : Option Val :=
  match m with
  | [] => none
  | (k2, v) :: rest => if k2 = k then some v else pget rest k

/-- Dictionary update `d[k] = v`: replaces the binding of `k`, or appends it. -/
def pset (m : PropMap) (k : String) (v : Val) : PropMap :=
  match m with
  | [] => [(k, v)]
  | (k2, v2) :: rest => if k2 = k then (k2, v) :: rest else (k2, v2) :: pset rest k v

/-- Every binding of `m1` is also in `m2` (dict inclusion, used for the
Cypher `{match}` patterns: every listed property must hold on the node). -/
def submap (m1 m2 : PropMap) : Bool :=
  m1.all (fun kv => pget m2 kv.1 == some kv.2)

/-- A stored graph node: internal id assigned by the store (`id(node)` in
Cypher), a set of labels, and a property map. -/
structure GNode where
  nid : Nat
  labels : List String
  props : PropMap
deriving DecidableEq, Repr

/-- A stored relationship: internal id, its type tag, the internal ids of
its endpoint nodes, and a property map. -/
structure GEdge where
  eid : Nat
  typ : String
  srcId : Nat
  dstId : Nat
  props : PropMap
deriving DecidableEq, Repr

/-- The graph store (the Neo4j database seen through graphdb.Neo4J):
node and relationship lists plus the next free internal id. -/
structure Store where
  nodes : List GNode
  edges : List GEdge
  nextId : Nat
deriving DecidableEq, Repr

/-- The empty store (after `model.clear()`). -/
def Store.empty : Store := { nodes := [], edges := [], nextId := 0 }

/-- Python-level error values raised by the embedded code. The code never
defines a `ValidationError` class; the constructor exists so the spec
taxonomy can be compared against what the code actually raises. -/
inductive PyErr where
  | valueError : String → Val → PyErr
  | validationError : String → Val → PyErr
  | attributeError : String → PyErr
  | typeError : String → PyErr
  | queueFullError : PyErr
  | wrapped : PyErr → PyErr
deriving DecidableEq, Repr

/-- Discriminator: is this error a `ValidationError`? -/
def is_validation_error : PyErr → Bool
  | .validationError _ _ => true
  | _ => false

/-- Discriminator: is this error a `ValueError`? -/
def is_value_error : PyErr → Bool
  | .valueError _ _ => true
  | _ => false

/-- Node match for graphdb.Neo4J.create_node: the Cypher
`MERGE ( node:L1:L2 { k: v, ... } )` pattern matches a node carrying all
listed labels and all listed property bindings. -/
def merge_matches (labels : List String) (md : PropMap) (nd : GNode) : Bool :=
  labels.all (fun l => nd.labels.contains l) && submap md nd.props

/-- graphdb.Neo4J.create_node (graphdb.py:119-137): runs
`MERGE ( node:kind {match} ) ON MATCH SET node=$properties, node.uid=id(node)
ON CREATE SET node=$properties, node.uid=id(node) RETURN node`.
On both branches the node property map is replaced wholesale by
`properties` and then `uid` is overwritten with the internal node id. -/
def create_node (g : Store) (match_dict : PropMap) (labels : List String)
    (properties : PropMap) : Store × Option GNode :=
  match g.nodes.find? (merge_matches labels match_dict) with
  | some nd =>
      let nd2 : GNode := { nd with props := pset properties "uid" (Val.num nd.nid) }
      ({ g with nodes :=
          g.nodes.map (fun x => if merge_matches labels match_dict x then
            { x with props := pset properties "uid" (Val.num x.nid) } else x) },
       some nd2)
  | none =>
      let nd : GNode := { nid := g.nextId, labels := labels,
                          props := pset properties "uid" (Val.num g.nextId) }
      ({ g with nodes := g.nodes ++ [nd], nextId := g.nextId + 1 }, some nd)

/-- The extra label constraint `_dict_to_cypher` pops from a match dict
under the key named label (graphdb.py:59). -/
def dict_label (md : PropMap) : Option String :=
  match pget md "label" with
  | some (Val.str s) => some s
  | _ => none

/-- The match dict with its label binding removed (it became a label
constraint, not a property filter). -/
def dict_sans_label (md : PropMap) : PropMap :=
  md.filter (fun kv => decide (kv.1 ≠ "label"))

/-- Node match for graphdb.Neo4J.update_node: the generated
`MATCH ( node:kind :popped_label { props } )` pattern. -/
def upd_matches (kind : String) (md : PropMap) (nd : GNode) : Bool :=
  nd.labels.contains kind
    && (match dict_label md with
        | some l => nd.labels.contains l
        | none => true)
    && submap (dict_sans_label md) nd.props

/-- Apply a Cypher `SET node.k = v, ...` clause: merge the given bindings
into an existing property map. -/
def set_props (old : PropMap) (props : PropMap) : PropMap :=
  props.foldl (fun acc kv => pset acc kv.1 kv.2) old

/-- graphdb.Neo4J.update_node (graphdb.py:139-155): runs
`MATCH ( node:kind {match} ) SET node.k=v, ... RETURN node`. A pure MATCH:
it updates every matching node in place, returns the first match after the
update, and never creates a node. With no match it returns nothing. -/
def update_node (g : Store) (match_dict : PropMap) (kind : String)
    (properties : PropMap) : Store × Option GNode :=
  match g.nodes.find? (upd_matches kind match_dict) with
  | some nd =>
      ({ g with nodes := g.nodes.map (fun x =>
          if upd_matches kind match_dict x then { x with props := set_props x.props properties }
          else x) },
       some { nd with props := set_props nd.props properties })
  | none => (g, none)

/-- Names defined at module level in grcp/core/model.py. Attribute access
`model.X` succeeds exactly for these names. `BorderRouter` and
`PeerRouter` are not among them: the node classes are named `Border` and
`Neighbor`. -/
def model_module_names : List String :=
  ["Property", "StringProperty", "ListProperty", "NumberProperty",
   "IntegerProperty", "FloatProperty", "BandwidthProperty", "LossProperty",
   "WeightProperty", "LatencyProperty", "CostProperty", "PreferenceProperty",
   "MedProperty", "OriginProperty", "IPAddressProperty", "PrefixProperty",
   "UIDProperty", "Model", "Node", "Router", "Border", "Neighbor", "Prefix",
   "Nexthop", "Edge", "Route", "Session", "Link", "IntraLink", "InterIngress",
   "InterEgress", "Advertise", "PathProperty", "Path", "Mapping",
   "initialize", "warm_up", "clear"]

/-- Attribute access on the model module: `model.n` returns the class name
or raises `AttributeError` when the module defines no such name. -/
def model_attr (n : String) : Except PyErr String :=
  if model_module_names.contains n then .ok n else .error (.attributeError n)

/-- Model.Node.get_or_create (model.py:478-494). The method generates a
fresh uid, applies the class defaults, and then issues
`cls._gdb.create_node(match=match_dict, labels=..., properties=kwargs)`
(model.py:490). `graphdb.Neo4J.create_node` declares its first parameter
as `match_dict` (graphdb.py:119), so Python rejects the keyword `match`
with a TypeError before any store interaction; no node is ever created or
fetched through this method. -/
def Node_get_or_create (g : Store) (match_dict : PropMap) (labels : List String)
    (properties : PropMap) : Store × Except PyErr (Option GNode) :=
  let _ := match_dict
  let _ := labels
  let _ := properties
  (g, .error (.typeError "create_node() got an unexpected keyword argument match"))

/-- Model.Border.get_or_create (model.py:538-540): inserts the routerid
into the properties and delegates to Node.get_or_create with
`match_dict={routerid}` and labels Border, Router. -/
def Border_get_or_create (g : Store) (routerid : String) (kwargs : PropMap) :
    Store × Except PyErr (Option GNode) :=
  Node_get_or_create g [("routerid", Val.str routerid)] ["Border", "Router"]
    (pset kwargs "routerid" (Val.str routerid))

/-- Model.Router.update (model.py:518-525): builds the match dict
`{routerid: routerid, label: cls.__name__}` and calls
`cls._gdb.update_node(match_dict, cls.__name__, properties)` positionally.
`update_node` pops the label key of the match dict into a label
constraint, so the effective match is label plus routerid. -/
def Router_update (g : Store) (kind : String) (routerid : String)
    (properties : PropMap) : Store × Option GNode :=
  update_node g [("routerid", Val.str routerid), ("label", Val.str kind)] kind properties

/-- Model.Edge.update (model.py:650-655) calls
`cls._gdb.update_link(cls.__name__, src_match, dst_match, kwargs)`, but
`graphdb.Neo4J.update_link` is declared as
`update_link(self, name, linkid, kind=None, properties={})`
(graphdb.py:206): the dst match dict lands in `kind`, and
`kind = ':' + kind` (graphdb.py:209) concatenates a string with a dict,
raising TypeError on every call, matching or not. -/
def Edge_update (g : Store) (kind : String) (src_match dst_match : PropMap)
    (kwargs : PropMap) : Store × Except PyErr (Option GEdge) :=
  let _ := kind
  let _ := src_match
  let _ := dst_match
  let _ := kwargs
  (g, .error (.typeError "can only concatenate str (not dict) to str"))

/-- Model.Route.update (model.py:734-738): matches the src Nexthop by
nexthop address and the dst Prefix by prefix, then delegates to
Edge.update. -/
def Route_update (g : Store) (nexthop pfx : Val) (properties : PropMap) :
    Store × Except PyErr (Option GEdge) :=
  Edge_update g "Route"
    [("nexthop", nexthop), ("label", Val.str "Nexthop")]
    [("prefix", pfx), ("label", Val.str "Prefix")]
    properties

/-- Is this character a decimal digit (structural, kernel-friendly). -/
def is_digit (c : Char) : Bool := 48 ≤ c.toNat && c.toNat ≤ 57

/-- Are all characters decimal digits. -/
def all_digits : List Char → Bool
  | [] => true
  | c :: rest => is_digit c && all_digits rest

/-- Decimal value of a digit string. -/
def dec_nat : List Char → Nat → Nat
  | [], acc => acc
  | c :: rest, acc => dec_nat rest (acc * 10 + (c.toNat - 48))

/-- Parse a signed decimal integer from characters (Python `int(str)`). -/
def int_of_chars : List Char → Option Int
  | [] => none
  | '-' :: rest =>
      if rest ≠ [] && all_digits rest then some (-(dec_nat rest 0 : Int)) else none
  | '+' :: rest =>
      if rest ≠ [] && all_digits rest then some (dec_nat rest 0 : Int) else none
  | cs => if all_digits cs then some (dec_nat cs 0 : Int) else none

/-- Split a character list on a separator character. -/
def split_on_char (sep : Char) : List Char → List (List Char)
  | [] => [[]]
  | c :: rest =>
      if c = sep then [] :: split_on_char sep rest
      else
        match split_on_char sep rest with
        | [] => [[c]]
        | g :: gs => (c :: g) :: gs

/-- Parse an unsigned decimal rational of the form digits or digits.digits. -/
def rat_of_chars_unsigned (cs : List Char) : Option Rat :=
  match split_on_char '.' cs with
  | [a] =>
      if a ≠ [] && all_digits a then some ((dec_nat a 0 : Int) : Rat) else none
  | [a, b] =>
      if a ≠ [] && b ≠ [] && all_digits a && all_digits b then
        some (((dec_nat a 0 : Int) : Rat) + ((dec_nat b 0 : Int) : Rat) / ((10 : Rat) ^ b.length))
      else none
  | _ => none

/-- Parse a signed decimal rational (Python `float(str)`). -/
def rat_of_chars : List Char → Option Rat
  | '-' :: rest => (rat_of_chars_unsigned rest).map (fun q => -q)
  | '+' :: rest => rat_of_chars_unsigned rest
  | cs => rat_of_chars_unsigned cs

/-- Python `int(value)` as used by IntegerProperty._validate: integers pass
through, floats truncate toward zero, decimal strings (with optional sign)
parse, everything else raises. -/
def py_int : Val → Option Int
  | .num n => some n
  | .flt q => some (if q ≥ 0 then q.floor else -((-q).floor))
  | .str s => int_of_chars s.data
  | .lst _ => none

/-- Python `float(value)`: numbers pass, strings of the form digits or
digits.digits (with optional sign) parse, lists raise. -/
def py_float : Val → Option Rat
  | .num n => some n
  | .flt q => some q
  | .str s => rat_of_chars s.data
  | .lst _ => none

/-- Python `str(value)`: total, every value has a string form, so
StringProperty validation never fails. The exact rendering of non-string
values is irrelevant to the claims. -/
def py_str : Val → String
  | .str s => s
  | .num n => toString n
  | .flt q => toString q
  | .lst _ => "[...]"

/-- Python `list(value)`: lists pass through, a string becomes the list of
its one-character strings, numbers raise. -/
def py_list : Val → Option (List SVal)
  | .lst l => some l
  | .str s => some (s.data.map (fun c => SVal.s (String.singleton c)))
  | _ => none

/-- Parse one decimal octet 0..255 without leading zeros. -/
def octet? (cs : List Char) : Option Nat :=
  if cs ≠ [] && cs.length ≤ 3 && all_digits cs
      && (cs.length = 1 || cs.head? ≠ some '0') then
    let n := dec_nat cs 0
    if n ≤ 255 then some n else none
  else none

/-- Parse a dotted-quad IPv4 address into its 32-bit value.
`ipaddress.ip_address` also accepts IPv6 and integer forms; the IPv4
textual form is the one the system uses. -/
def ipv4? (s : String) : Option Nat :=
  match (split_on_char '.' s.data).mapM octet? with
  | some [a, b, c, d] => some (((a * 256 + b) * 256 + c) * 256 + d)
  | _ => none

/-- Canonical dotted-quad rendering of a 32-bit address. -/
def ipv4_str (n : Nat) : String :=
  toString (n / 16777216 % 256) ++ "." ++ toString (n / 65536 % 256) ++ "."
    ++ toString (n / 256 % 256) ++ "." ++ toString (n % 256)

/-- ipaddress.ip_address over a Val, canonicalized back to text, as
IPAddressProperty._validate uses it (model.py:227-235). -/
def py_ip_address : Val → Option String
  | .str s => (ipv4? s).map ipv4_str
  | .num n => if 0 ≤ n ∧ n < 4294967296 then some (ipv4_str n.toNat) else none
  | _ => none

/-- ipaddress.ip_network over a Val (strict: host bits must be zero),
canonicalized, as PrefixProperty._validate uses it (model.py:238-246).
A bare address is a /32. -/
def py_ip_network : Val → Option String
  | .str s =>
      match split_on_char '/' s.data with
      | [a] =>
          match (split_on_char '.' a).mapM octet? with
          | some [x, y, z, w] =>
              some (ipv4_str (((x * 256 + y) * 256 + z) * 256 + w) ++ "/32")
          | _ => none
      | [a, l] =>
          match (split_on_char '.' a).mapM octet?, int_of_chars l with
          | some [x, y, z, w], some len =>
              let n := ((x * 256 + y) * 256 + z) * 256 + w
              if 0 ≤ len ∧ len ≤ 32 then
                if n % 2 ^ (32 - len.toNat) = 0 then
                  some (ipv4_str n ++ "/" ++ toString len)
                else none
              else none
          | _, _ => none
      | _ => none
  | .num n => if 0 ≤ n ∧ n < 4294967296 then some (ipv4_str n.toNat ++ "/32") else none
  | _ => none

/-- The Property subclasses of model.py whose `_validate` the system
exercises (model.py:135-246). -/
inductive PropKind where
  | stringProp
  | intProp
  | floatProp
  | listProp
  | ipProp
  | pfxProp
  | prefProp
  | originProp
deriving DecidableEq, Repr

/-- The conversion each Property subclass applies in `_validate`
(model.py:44-54, 199-246): the accepted values and their converted form. -/
def validate_conv : PropKind → Val → Option Val
  | .stringProp, v => some (.str (py_str v))
  | .intProp, v => (py_int v).map Val.num
  | .floatProp, v => (py_float v).map Val.flt
  | .listProp, v => (py_list v).map Val.lst
  | .ipProp, v => (py_ip_address v).map Val.str
  | .pfxProp, v => (py_ip_network v).map Val.str
  | .prefProp, v =>
      match py_int v with
      | some n => if n < 0 then none else some (.num n)
      | none => none
  | .originProp, v =>
      match v with
      | .str s =>
          if s.toLower = "incomplete" then some (.num (-1))
          else if s.toLower = "igp" then some (.num 0)
          else if s.toLower = "egp" then some (.num 1)
          else none
      | .num n => if n = -1 ∨ n = 0 ∨ n = 1 then some (.num n) else none
      | _ => none

/-- The Python class name of each modeled Property subclass, as used in
the ValueError messages of `_validate`. -/
def prop_cls_name : PropKind → String
  | .stringProp => "StringProperty"
  | .intProp => "IntegerProperty"
  | .floatProp => "FloatProperty"
  | .listProp => "ListProperty"
  | .ipProp => "IPAddressProperty"
  | .pfxProp => "PrefixProperty"
  | .prefProp => "PreferenceProperty"
  | .originProp => "OriginProperty"

/-- Property._validate dispatched per subclass (model.py:44-54, 199-246).
Every failing branch in the source raises a Python ValueError whose
message carries the property class name and the offending value; no
branch raises anything else, and in particular no `ValidationError` class
exists anywhere in the code. -/
def validate (pk : PropKind) (v : Val) : Except PyErr Val :=
  match validate_conv pk v with
  | some w => .ok w
  | none => .error (.valueError (prop_cls_name pk) v)

/-- Property._set_value as reached through Model.__setattr__
(model.py:65-70, 307-317): a non-None value is validated first (raising
synchronously on failure), then the required check runs, then the value is
stored in the entity dict. The graph store is passed through untouched:
this code path performs no store interaction. -/
def set_value (g : Store) (entity_values : PropMap) (pk : PropKind)
    (name : String) (required : Bool) (v : Option Val) :
    Store × Except PyErr PropMap :=
  match v with
  | some v0 =>
      match validate pk v0 with
      | .error e => (g, .error e)
      | .ok v1 => (g, .ok (pset entity_values name v1))
  | none =>
      if required then
        (g, .error (.valueError name (Val.str "required")))
      else
        (g, .ok entity_values)

/-- The label/type names substituted into the Path branch of
Query._to_cypher (query.py:159-208), one field per template placeholder. -/
structure PathCypher where
  src_kind : String
  dst_kind : String
  u_kind : String
  i_kind : String
  e_kind : String
  b_kind : String
  n_kind : String
  r_kind : String
  src_routerid : String
  dst_pfx : String
deriving DecidableEq, Repr

/-- The Path branch of Query._to_cypher (query.py:158-208). After the
template, early filter and synthetic-property substitutions, the code
builds the substitution list
`[..., ('{u_kind}', model.InterIngress.__name__),
('{i_kind}', model.IntraLink.__name__), ('{e_kind}', model.InterEgress.__name__),
('{b_kind}', model.BorderRouter.__name__), ('{n_kind}', model.PeerRouter.__name__),
('{r_kind}', model.Route.__name__)]` (query.py:193-201); the attribute
reads happen in this order while the list literal is evaluated, so the
first missing name aborts query construction. -/
def path_to_cypher (src_label dst_label : String) (src_routerid dst_pfx : String) :
    Except PyErr PathCypher := do
  let u ← model_attr "InterIngress"
  let i ← model_attr "IntraLink"
  let e ← model_attr "InterEgress"
  let b ← model_attr "BorderRouter"
  let n ← model_attr "PeerRouter"
  let r ← model_attr "Route"
  .ok { src_kind := src_label, dst_kind := dst_label, u_kind := u, i_kind := i,
        e_kind := e, b_kind := b, n_kind := n, r_kind := r,
        src_routerid := src_routerid, dst_pfx := dst_pfx }

/-- One result row of the Path query, carrying the fields the template
returns under the `WITH { ... } AS Path` map (query.py:167-170): the hop
identifiers and traversed uid lists. The synthetic metric fields (copies
of link/route properties) do not influence which rows are produced and are
omitted. -/
structure PathRow where
  nodesL : List (Option Val)
  linksL : List (Option Val)
  neighbor : Option Val
  ingress : Option Val
  egress : Option Val
  pathid : Option Val
  nexthop : Option Val
deriving DecidableEq, Repr

/-- The Cypher no-loop early filter
`( (neigh.peer_ip <> src.peer_ip AND EXISTS(src.peer_ip)) OR NOT EXISTS(src.peer_ip) )`
(query.py:172). In Cypher a comparison against a missing property is null,
which does not satisfy the WHERE clause. -/
def no_loop (src neigh : GNode) : Bool :=
  match pget src.props "peer_ip" with
  | none => true
  | some sp =>
      match pget neigh.props "peer_ip" with
      | none => false
      | some np => !(Val.eqb np sp)

/-- Does the entity state property equal the string up? -/
def state_up (props : PropMap) : Bool :=
  pget props "state" == some (Val.str "up")

/-- Candidate ingress nodes: `(src)-[:{u_kind}*0..1]->(i:{b_kind})`
(query.py:159). Zero hops binds i to src itself when src carries the
border label; one hop follows a u_kind relationship into a b_kind node. -/
def ingress_candidates (g : Store) (q : PathCypher) (src : GNode) : List GNode :=
  (if src.labels.contains q.b_kind then [src] else [])
    ++ g.edges.filterMap (fun e =>
        if e.typ = q.u_kind ∧ e.srcId = src.nid then
          g.nodes.find? (fun nd => nd.nid = e.dstId && nd.labels.contains q.b_kind)
        else none)

/-- Candidate (egress border, intra-AS relationship list) pairs:
`p=shortestpath((i)-[:{i_kind}*0..{maxlen}]->(b:{b_kind}))` with maxlen 1
(query.py:160,208). The zero-length path binds b to i; otherwise one
i_kind relationship is followed. Where several parallel relationships
exist shortestpath picks one of them; enumerating each is a sound
overapproximation and exact on parallel-free stores. -/
def intra_candidates (g : Store) (q : PathCypher) (i : GNode) :
    List (GNode × List GEdge) :=
  (i, []) :: g.edges.filterMap (fun e =>
      if e.typ = q.i_kind ∧ e.srcId = i.nid then
        (g.nodes.find? (fun nd => nd.nid = e.dstId && nd.nid ≠ i.nid
            && nd.labels.contains q.b_kind)).map (fun b => (b, [e]))
      else none)

/-- The UNWIND clause (query.py:165-166): with an empty relationship list
the row is kept once with a null IntraLink; otherwise the list is filtered
to relationships of type i_kind whose state is up or absent, and one row
is produced per survivor (none survive, no row). -/
def unwind_intra (q : PathCypher) (lp : List GEdge) : List (Option GEdge) :=
  match lp with
  | [] => [none]
  | _ => (lp.filter (fun e => e.typ = q.i_kind
            && (state_up e.props || (pget e.props "state").isNone))).map some

/-- Build one result row (query.py:167-170). NODES(p) of the zero-length
path is the single node i; of a one-hop path it is i then b. The template
reads `i.router_id` and `b.router_id` verbatim (the model stores the
property as routerid, so these come back null on model-created data). -/
def mk_row (_q : PathCypher) (i b neigh dst : GNode) (lp : List GEdge)
    (eg rt : GEdge) (_intra : Option GEdge) : PathRow :=
  let np := if lp.isEmpty then [i] else [i, b]
  { nodesL := np.map (fun nd => pget nd.props "uid")
      ++ [pget neigh.props "uid", pget dst.props "uid"],
    linksL := lp.map (fun e => pget e.props "uid")
      ++ [pget eg.props "uid", pget rt.props "uid"],
    neighbor := pget neigh.props "peer_ip",
    ingress := pget i.props "router_id",
    egress := pget b.props "router_id",
    pathid := pget eg.props "pathid",
    nexthop := pget rt.props "nexthop" }

/-- Row-level semantics of the Path query template (query.py:159-172):
enumerate src, dst, ingress, egress-border, egress relationship, neighbor
and route bindings of the MATCH pattern, apply the WHERE clause (the
caller-supplied src/dst early filters, the no-loop clause, and the
state-up filters on the egress relationship, src, egress border, neighbor
and route — the template never constrains the state of dst or of the
ingress node), then UNWIND the intra-AS relationships. -/
def path_template_rows (g : Store) (q : PathCypher) : List PathRow :=
  (g.nodes.filter (fun src => src.labels.contains q.src_kind
      && pget src.props "routerid" == some (Val.str q.src_routerid))).flatMap
    (fun src =>
      (g.nodes.filter (fun dst => dst.labels.contains q.dst_kind
          && pget dst.props "prefix" == some (Val.str q.dst_pfx))).flatMap
        (fun dst =>
          (ingress_candidates g q src).flatMap (fun i =>
            (intra_candidates g q i).flatMap (fun ib =>
              (g.edges.filter (fun eg => eg.typ = q.e_kind && eg.srcId = ib.1.nid)).flatMap
                (fun eg =>
                  (g.nodes.filter (fun neigh => neigh.nid = eg.dstId
                      && neigh.labels.contains q.n_kind)).flatMap
                    (fun neigh =>
                      (g.edges.filter (fun rt => rt.typ = q.r_kind
                          && rt.srcId = neigh.nid && rt.dstId = dst.nid)).flatMap
                        (fun rt =>
                          if no_loop src neigh && state_up eg.props
                              && state_up src.props && state_up ib.1.props
                              && state_up neigh.props && state_up rt.props then
                            (unwind_intra q ib.2).map (mk_row q i ib.1 neigh dst ib.2 eg rt)
                          else [])))))))

/-- Model.Path.query (model.py:869-874): the src label is Neighbor for a
peer-originated query and Border otherwise; dst is matched as a Prefix by
prefix value. -/
def Path_query_src_label (for_peer : Bool) : String :=
  if for_peer then "Neighbor" else "Border"

/-- Query.fetch for a Path query (query.py:276-279): builds the Cypher
text with `_to_cypher` and only then hands it to `gdb.exec_query`. The
first component lists the queries issued to the store; the second is the
outcome (rows via the template semantics, or the error raised while
building the query). -/
def Path_fetch (g : Store) (routerid pfx : String) (for_peer : Bool) :
    List PathCypher × Except PyErr (List PathRow) :=
  match path_to_cypher (Path_query_src_label for_peer) "Prefix" routerid pfx with
  | .error e => ([], .error e)
  | .ok q => ([q], .ok (path_template_rows g q))

/-- Query.count for a Path query (query.py:281-285): also builds the
Cypher text first, then executes and counts the records. -/
def Path_count (g : Store) (routerid pfx : String) (for_peer : Bool) :
    List PathCypher × Except PyErr Nat :=
  match path_to_cypher (Path_query_src_label for_peer) "Prefix" routerid pfx with
  | .error e => ([], .error e)
  | .ok q => ([q], .ok (path_template_rows g q).length)

/-- Domain events emitted by the TopologyManager (topology.py:16-49). -/
inductive Ev where
  | routerUp : GNode → Ev
  | routerDown : GNode → Ev
  | peerUp : GNode → Ev
  | peerDown : GNode → Ev
  | routeAdd : GEdge → Ev
  | routeDel : GEdge → Ev
  | linkUp : GEdge → Ev
  | linkDown : GEdge → Ev
deriving DecidableEq, Repr

/-- The concrete event class of an event (`event.__class__`), as the
dispatch tables key it. -/
def ev_cls : Ev → String
  | .routerUp _ => "EventRouterUp"
  | .routerDown _ => "EventRouterDown"
  | .peerUp _ => "EventPeerUp"
  | .peerDown _ => "EventPeerDown"
  | .routeAdd _ => "EventRouteAdd"
  | .routeDel _ => "EventRouteDel"
  | .linkUp _ => "EventLinkUp"
  | .linkDown _ => "EventLinkDown"

/-- Is this event an EventRouterDown? -/
def is_router_down_ev : Ev → Bool
  | .routerDown _ => true
  | _ => false

/-- Lookup in the controller router_to_connection dict: the outer Option
is key presence, the inner one distinguishes a live connection from an
explicit None binding (controller.py:59). -/
def cget (m : List (String × Option Nat)) (k : String) : Option (Option Nat) :=
  match m with
  | [] => none
  | (k2, v) :: rest => if k2 = k then some v else cget rest k

/-- Update of the router_to_connection dict. -/
def cset (m : List (String × Option Nat)) (k : String) (v : Option Nat) :
    List (String × Option Nat) :=
  match m with
  | [] => [(k, v)]
  | (k2, v2) :: rest => if k2 = k then (k2, v) :: rest else (k2, v2) :: cset rest k v

/-- Combined state of the RouterController and the TopologyManager it
drives: the graph store, the router-to-connection map, the outgoing
message queue, and the domain events emitted so far. -/
structure Sys where
  store : Store
  conns : List (String × Option Nat)
  outq : List (Nat × Val)
  events : List Ev
deriving Repr

/-- The state right after TopologyManager.__init__, which clears the
store (topology.py:66). -/
def Sys.init : Sys := { store := Store.empty, conns := [], outq := [], events := [] }

/-- TopologyManager.router_register (topology.py:85-89): the kwargs passed
to Border.get_or_create default the state to unknown when the message
carried no state field. -/
def router_register_kwargs (attrs : PropMap) : PropMap :=
  if (pget attrs "state").isSome then attrs else pset attrs "state" (Val.str "unknown")

/-- TopologyManager.router_register (topology.py:85-93): calls
Border.get_or_create and emits EventRouterUp when an entity came back. The
get_or_create call raises (keyword TypeError, model.py:490), which
propagates to the caller. -/
def router_register (sys : Sys) (routerid : String) (attrs : PropMap) :
    Sys × Except PyErr (Option GNode) :=
  match Border_get_or_create sys.store routerid (router_register_kwargs attrs) with
  | (g, .error e) => ({ sys with store := g }, .error e)
  | (g, .ok (some router)) =>
      ({ sys with store := g, events := sys.events ++ [Ev.routerUp router] }, .ok (some router))
  | (g, .ok none) => ({ sys with store := g }, .ok none)

/-- TopologyManager.router_up (topology.py:95-101): Border.update with
state up; emits EventRouterUp when an entity was matched. -/
def topo_router_up (sys : Sys) (routerid : String) : Sys :=
  match Router_update sys.store "Border" routerid [("state", Val.str "up")] with
  | (g, some router) => { sys with store := g, events := sys.events ++ [Ev.routerUp router] }
  | (g, none) => { sys with store := g }

/-- TopologyManager.router_down (topology.py:103-109): Border.update with
state down; emits EventRouterDown when an entity was matched. -/
def topo_router_down (sys : Sys) (routerid : String) : Sys :=
  match Router_update sys.store "Border" routerid [("state", Val.str "down")] with
  | (g, some router) => { sys with store := g, events := sys.events ++ [Ev.routerDown router] }
  | (g, none) => { sys with store := g }

/-- TopologyManager.route_up (topology.py:130-148). Its first step runs
create_nexthop (topology.py:131-132): the in-memory nexthops set only ever
gains members after a successful Nexthop.get_or_create
(topology.py:164-168), and that call — like every node get_or_create —
raises the keyword TypeError of model.py:490, so the set stays empty and
route_up always raises there, before any store write or event. -/
def topo_route_up (sys : Sys) (nexthop pfxv : Val) (attrs : PropMap) :
    Sys × Except PyErr Unit :=
  let _ := nexthop
  let _ := pfxv
  let _ := attrs
  (sys, .error (.typeError "create_node() got an unexpected keyword argument match"))

/-- TopologyManager.route_down (topology.py:150-156): Route.update with
state down (which raises, see Edge_update); on a returned edge it would
emit EventRouteDel. -/
def topo_route_down (sys : Sys) (nexthop pfxv : Val) : Sys × Except PyErr Unit :=
  match Route_update sys.store nexthop pfxv [("state", Val.str "down")] with
  | (g, .error e) => ({ sys with store := g }, .error e)
  | (g, .ok (some route)) =>
      ({ sys with store := g, events := sys.events ++ [Ev.routeDel route] }, .ok ())
  | (g, .ok none) => ({ sys with store := g }, .ok ())

/-- The attr dict _process_router_msg builds from the state and name
message fields (controller.py:48-51). -/
def collect_attrs (msg : PropMap) : PropMap :=
  (match pget msg "state" with | some v => [("state", v)] | none => [])
    ++ (match pget msg "name" with | some v => [("name", v)] | none => [])

/-- RouterController._process_router_msg (controller.py:43-60). On
router_up of an unknown router it calls router_register and only binds the
connection afterwards, so an exception in router_register skips the
binding; on router_down it first rebinds the router to None and then calls
router_down. Wire router ids are JSON strings. -/
def process_router_msg (sys : Sys) (conn : Nat) (msg : PropMap) :
    Sys × Except PyErr Unit :=
  match pget msg "routerid" with
  | some (Val.str rid) =>
      let attrs := collect_attrs msg
      if pget msg "msg_type" == some (Val.str "router_up") then
        if (cget sys.conns rid).isSome then
          let sys2 := topo_router_up sys rid
          ({ sys2 with conns := cset sys2.conns rid (some conn) }, .ok ())
        else
          match router_register sys rid attrs with
          | (sys2, .error e) => (sys2, .error e)
          | (sys2, .ok _) => ({ sys2 with conns := cset sys2.conns rid (some conn) }, .ok ())
      else if pget msg "msg_type" == some (Val.str "router_down") then
        let sys2 := { sys with conns := cset sys.conns rid none }
        (topo_router_down sys2 rid, .ok ())
      else (sys, .ok ())
  | _ => (sys, .ok ())

/-- Python truthiness of a message field (`if not (nexthop and prefix and
peer_ip)`, controller.py:81): absent fields, empty strings, zeros and
empty lists are falsy. -/
def truthy : Option Val → Bool
  | none => false
  | some (Val.str s) => decide (s ≠ "")
  | some (Val.num n) => decide (n ≠ 0)
  | some (Val.flt q) => decide (q ≠ 0)
  | some (Val.lst l) => !l.isEmpty

/-- RouterController._process_update_msg (controller.py:77-90): a message
whose next_hop, prefix or peer_ip field is missing or falsy returns before
invoking any topology handler; otherwise route_up or route_down runs. -/
def process_update_msg (sys : Sys) (msg : PropMap) : Sys × Except PyErr Unit :=
  let peer_ip := pget msg "peer_ip"
  let pfxv := pget msg "prefix"
  let nexthop := pget msg "next_hop"
  if !(truthy nexthop && truthy pfxv && truthy peer_ip) then
    (sys, .ok ())
  else
    match nexthop, pfxv with
    | some nh, some pv =>
        if pget msg "msg_type" == some (Val.str "route_up") then
          topo_route_up sys nh pv msg
        else
          topo_route_down sys nh pv
    | _, _ => (sys, .ok ())

/-- RouterController._process_msg (controller.py:123-140) for the message
groups the claims exercise: dispatch on msg_type to the update or router
handler, catching and logging every exception (the peer, link and nexthop
groups are dispatched the same way and are not needed by the claims). A
message with an unrecognized msg_type is dropped. -/
def process_msg (sys : Sys) (conn : Nat) (msg : PropMap) : Sys :=
  let mt := pget msg "msg_type"
  let r :=
    if mt == some (Val.str "route_up") || mt == some (Val.str "route_down") then
      process_update_msg sys msg
    else if mt == some (Val.str "router_up") || mt == some (Val.str "router_down") then
      process_router_msg sys conn msg
    else (sys, .ok ())
  r.1

/-- RouterController._get_connection_by_router_id plus the truthiness test
of send_msg (controller.py:157-165): a missing key and an explicit None
binding both yield no live connection (connection identifiers are Twisted
address objects, truthy whenever present). -/
def get_connection_by_router_id (sys : Sys) (router_id : String) : Option Nat :=
  match cget sys.conns router_id with
  | some (some cid) => some cid
  | _ => none

/-- RouterController.send_msg (controller.py:162-166): resolves the
connection; with a live one it enqueues the message on the outgoing queue
(bounded at 512, put_nowait), otherwise it does nothing. The method body
has no return statement, so the Python caller always receives None —
modeled as the `Option Bool` result being `none`. -/
def send_msg (sys : Sys) (router_id : String) (msg : Val) :
    Except PyErr (Sys × Option Bool) :=
  match get_connection_by_router_id sys router_id with
  | some cid =>
      if sys.outq.length < 512 then
        .ok ({ sys with outq := sys.outq ++ [(cid, msg)] }, none)
      else
        .error .queueFullError
  | none => .ok (sys, none)

/-- A registered application (app_manager.AppBase): its name, the event
classes its handlers listen to (collected at load time from the
listen_to_ev annotations), and its bounded inbound event queue. -/
structure App where
  name : String
  handlers : List String
  queue : List Ev
deriving DecidableEq, Repr

/-- AppBase.register_observers composed with _get_observers
(app_manager.py:59-66, 84-87): after load_apps has registered every
application against every other, application b observes the events of
class cls emitted by sender exactly when b is another application (names
differ; AppManager keys applications by name, so names are unique) whose
handlers cover cls. -/
def is_observer (sender : String) (cls : String) (b : App) : Bool :=
  decide (b.name ≠ sender) && b.handlers.contains cls

/-- eventlet.Queue(512).put_nowait (app_manager.py:51, 90): appends the
event, or raises Full on a full queue. -/
def put_nowait (a : App) (ev : Ev) : Except PyErr App :=
  if a.queue.length < 512 then .ok { a with queue := a.queue ++ [ev] }
  else .error .queueFullError

/-- AppBase.send_event_to_observers (app_manager.py:92-94): iterate over
the observers of the event class, pushing the event onto each observer
queue with put_nowait; a Full exception aborts the iteration with the
already-delivered queues kept (iteration order over the observer set is
modeled by list order; it is immaterial when no queue is full). -/
def send_event_to_observers (apps : List App) (sender : String) (ev : Ev) :
    List App × Except PyErr Unit :=
  match apps with
  | [] => ([], .ok ())
  | b :: rest =>
      if is_observer sender (ev_cls ev) b then
        match put_nowait b ev with
        | .ok b2 =>
            let (r, e) := send_event_to_observers rest sender ev
            (b2 :: r, e)
        | .error e => (b :: rest, .error e)
      else
        let (r, e) := send_event_to_observers rest sender ev
        (b :: r, e)

/-- A handler registration of one application: the event class listened
to, a handler identity (for tracing which handlers ran), and the handler
body, which may raise. -/
abbrev Handler := String × Nat × (Ev → Except PyErr Unit)

/-- AppBase._get_handlers (app_manager.py:68-72): the handlers registered
for the concrete class of the event. -/
def get_handlers (hs : List Handler) (ev : Ev) : List (Nat × (Ev → Except PyErr Unit)) :=
  (hs.filter (fun h => h.1 = ev_cls ev)).map (fun h => h.2)

/-- The `for handler in handlers: handler(event)` loop of
AppBase._event_loop (app_manager.py:79-80): runs handlers in order,
recording which ran; the first exception aborts the loop and propagates,
so the handlers after it never run. -/
def run_handlers (hs : List (Nat × (Ev → Except PyErr Unit))) (ev : Ev) :
    List Nat × Except PyErr Unit :=
  match hs with
  | [] => ([], .ok ())
  | (i, h) :: rest =>
      match h ev with
      | .ok _ =>
          let (tr, r) := run_handlers rest ev
          (i :: tr, r)
      | .error e => ([i], .error e)

/-- AppBase._event_loop (app_manager.py:74-82) on a queue of pending
events: each iteration takes one event and invokes its handlers; the
except clause does not resume the loop — it re-raises the exception
wrapped as `raise Exception(e)`, which terminates the loop (spawn then
prints it and the greenlet dies, app_manager.py:17-27). Returns the trace
of handler identities that ran, the events left unprocessed, and the
outcome. -/
def event_loop (hs : List Handler) (queue : List Ev) :
    List Nat × List Ev × Except PyErr Unit :=
  match queue with
  | [] => ([], [], .ok ())
  | ev :: rest =>
      match run_handlers (get_handlers hs ev) ev with
      | (tr, .ok _) =>
          let (tr2, rem, r) := event_loop hs rest
          (tr ++ tr2, rem, r)
      | (tr, .error e) => (tr, rest, .error (.wrapped e))

/-- C1 failing input, nodes: an up Border 1.1.1.1, an up Neighbor
3.3.3.3, and the destination Prefix 1.0.0.0/24 with state down. -/
def c1_border : GNode :=
  ⟨1, ["Border", "Router"],
   [("uid", Val.num 1), ("routerid", Val.str "1.1.1.1"), ("state", Val.str "up")]⟩

/-- C1 failing input: the egress neighbor node. -/
def c1_neigh : GNode :=
  ⟨2, ["Neighbor", "Router"],
   [("uid", Val.num 2), ("routerid", Val.str "3.3.3.3"),
    ("peer_ip", Val.str "3.3.3.3"), ("state", Val.str "up")]⟩

/-- C1 failing input: the destination prefix node, state down. -/
def c1_pfx_node : GNode :=
  ⟨3, ["Prefix"],
   [("uid", Val.num 3), ("prefix", Val.str "1.0.0.0/24"), ("state", Val.str "down")]⟩

/-- C1 failing input: up InterEgress from the border to the neighbor. -/
def c1_eg : GEdge :=
  ⟨10, "InterEgress", 1, 2,
   [("uid", Val.num 10), ("state", Val.str "up"), ("pathid", Val.num 7)]⟩

/-- C1 failing input: up Route from the neighbor to the prefix. -/
def c1_rt : GEdge :=
  ⟨11, "Route", 2, 3,
   [("uid", Val.num 11), ("state", Val.str "up"), ("nexthop", Val.str "3.3.3.3")]⟩

/-- C1 failing-input topology. -/
def c1_store : Store := ⟨[c1_border, c1_neigh, c1_pfx_node], [c1_eg, c1_rt], 20⟩

/-- C1: the Path template instantiated with the labels its substitution
list intends — Border for the border kinds and Neighbor for the neighbor
kind, the names the model module defines (the code reads them under the
stale names BorderRouter/PeerRouter, see C2) — querying from router
1.1.1.1 toward prefix 1.0.0.0/24. -/
def c1_q : PathCypher :=
  ⟨"Border", "Prefix", "InterIngress", "IntraLink", "InterEgress",
   "Border", "Neighbor", "Route", "1.1.1.1", "1.0.0.0/24"⟩

/-- Does some node of the store appear among the uids a path row
traverses while its state is not up? -/
def traversed_not_up (g : Store) (r : PathRow) : Bool :=
  g.nodes.any (fun nd => r.nodesL.contains (pget nd.props "uid") && !(state_up nd.props))

/-- C1: the claimed Path-query invariant fails on the code. With the
shipped model module the query raises AttributeError before reaching the
store, so it never returns any result at all; and the query text the
builder assembles never constrains the destination prefix state, so on
the concrete topology c1_store (down destination prefix) its traversal
semantics returns a row that traverses a node whose state is not up. -/
theorem c1_path_query_invariant_not_enforced :
    (Path_fetch c1_store "1.1.1.1" "1.0.0.0/24" false).2
        = .error (.attributeError "BorderRouter")
    ∧ (path_template_rows c1_store c1_q).any (traversed_not_up c1_store) = true :=
  ⟨rfl, by decide⟩

/-- C2: materializing any Path query — fetch or count, over any store,
for any start identity, destination prefix and for_peer flag — raises
AttributeError (the builder reads model.BorderRouter, which does not
exist; model.PeerRouter is equally missing but the list crashes at the
first), and no query is ever issued to the store, so no Path query ever
yields a result. -/
theorem c2_path_query_raises_attribute_error (g : Store) (routerid pfx : String)
    (for_peer : Bool) :
    Path_fetch g routerid pfx for_peer = ([], .error (.attributeError "BorderRouter"))
    ∧ Path_count g routerid pfx for_peer = ([], .error (.attributeError "BorderRouter")) :=
  ⟨rfl, rfl⟩

/-- C10: an inbound route_down message carrying only peer_ip and prefix
(the documented wire format — no next_hop field) makes
_process_update_msg return before invoking any topology handler: the
whole system state, store and emitted events included, is unchanged and
no exception escapes. -/
theorem c10_route_down_without_next_hop_is_noop (sys : Sys) (peer pfxv : Val) :
    process_update_msg sys
        [("msg_type", Val.str "route_down"), ("peer_ip", peer), ("prefix", pfxv)]
      = (sys, .ok ()) :=
  rfl

/-- C8 counterexample: with no connection mapped for the router, send_msg
drops the message but hands back Python None, which is not the boolean
value False the claim promises. -/
theorem c8_send_msg_returns_none_not_false :
    send_msg Sys.init "1.1.1.1" (Val.str "hello") = .ok (Sys.init, none)
    ∧ ((none : Option Bool) == some false) = false :=
  ⟨rfl, rfl⟩

/-- C8 amended: for every router id with no live connection mapped
(missing key or an explicit None binding), send_msg drops the message —
the outgoing queue and all other state are unchanged — and returns
normally (no exception) with Python None, a falsy value but not the
boolean False. -/
theorem c8_send_msg_unmapped_drops_and_returns_none (sys : Sys) (rid : String)
    (msg : Val) (h : get_connection_by_router_id sys rid = none) :
    send_msg sys rid msg = .ok (sys, none) := by
  simp [send_msg, h]

/-- C8 witness: the amended statement at a concrete unmapped router. -/
theorem c8_send_msg_unmapped_witness :
    get_connection_by_router_id Sys.init "1.1.1.1" = none
    ∧ send_msg Sys.init "1.1.1.1" (Val.str "m") = .ok (Sys.init, none) :=
  ⟨rfl, c8_send_msg_unmapped_drops_and_returns_none Sys.init "1.1.1.1" (Val.str "m") rfl⟩

/-- Helper: every validation failure in Property._validate is a Python
ValueError (no other exception class appears in any _validate branch). -/
theorem validate_only_raises_value_error (pk : PropKind) (v : Val) (e : PyErr)
    (h : validate pk v = .error e) : is_value_error e = true := by
  unfold validate at h
  cases hp : validate_conv pk v <;> rw [hp] at h
  · obtain rfl : PyErr.valueError (prop_cls_name pk) v = e := by injection h
    rfl
  · cases h

/-- C4 counterexample: assigning the string x to an IntegerProperty (for
example Route.med) raises a ValueError naming the property class and the
offending value — not a ValidationError; no ValidationError class exists
in the code. -/
theorem c4_invalid_assignment_raises_value_error_not_validation_error :
    set_value Store.empty [] PropKind.intProp "med" false (some (Val.str "x"))
      = (Store.empty, .error (.valueError "IntegerProperty" (Val.str "x")))
    ∧ is_validation_error (PyErr.valueError "IntegerProperty" (Val.str "x")) = false :=
  ⟨by rfl, by rfl⟩

/-- C4 amended: for every modeled property kind and every raw value that
fails that kind's type validation, the assignment raises synchronously at
the point the property is set — the raised exception is a ValueError
(carrying the property class and the offending value), and the graph
store is untouched: no store interaction happens on an invalid
assignment. -/
theorem c4_invalid_assignment_value_error_before_store (g : Store) (vals : PropMap)
    (pk : PropKind) (name : String) (req : Bool) (v : Val) (e : PyErr)
    (h : validate pk v = .error e) :
    set_value g vals pk name req (some v) = (g, .error e)
    ∧ is_value_error e = true := by
  refine ⟨?_, validate_only_raises_value_error pk v e h⟩
  simp [set_value, h]

/-- C4 witness: the amended statement at a concrete failing assignment. -/
theorem c4_invalid_assignment_witness :
    validate PropKind.intProp (Val.str "x")
        = .error (.valueError "IntegerProperty" (Val.str "x"))
    ∧ set_value Store.empty [] PropKind.intProp "med" true (some (Val.str "x"))
        = (Store.empty, .error (.valueError "IntegerProperty" (Val.str "x"))) :=
  ⟨by rfl, (c4_invalid_assignment_value_error_before_store Store.empty [] PropKind.intProp
      "med" true (Val.str "x") (.valueError "IntegerProperty" (Val.str "x")) (by rfl)).1⟩

/-- C9: for every store, node kind and router id whose natural key matches
no stored node, Router.update returns None rather than raising, and
performs no insertion — the update path issues a pure MATCH...SET, so the
node count is unchanged (here the whole store is unchanged). -/
theorem c9_update_unmatched_returns_none_no_insertion (g : Store) (kind rid : String)
    (props : PropMap)
    (h : ∀ nd ∈ g.nodes,
        upd_matches kind [("routerid", Val.str rid), ("label", Val.str kind)] nd = false) :
    Router_update g kind rid props = (g, none)
    ∧ (Router_update g kind rid props).1.nodes.length = g.nodes.length := by
  have hf : g.nodes.find?
      (upd_matches kind [("routerid", Val.str rid), ("label", Val.str kind)]) = none := by
    rw [List.find?_eq_none]
    intro x hx
    simp [h x hx]
  have h1 : Router_update g kind rid props = (g, none) := by
    unfold Router_update update_node
    rw [hf]
  exact ⟨h1, by rw [h1]⟩

/-- C9 witness store: a single Prefix node, which cannot match a Border
routerid update. -/
def c9_store : Store :=
  ⟨[⟨0, ["Prefix"], [("uid", Val.num 0), ("prefix", Val.str "1.0.0.0/24")]⟩], [], 1⟩

/-- C9 witness: updating a nonexistent router leaves the witness store
unchanged and returns None. -/
theorem c9_update_unmatched_witness :
    (∀ nd ∈ c9_store.nodes,
        upd_matches "Border" [("routerid", Val.str "9.9.9.9"), ("label", Val.str "Border")] nd
          = false)
    ∧ Router_update c9_store "Border" "9.9.9.9" [("state", Val.str "down")] = (c9_store, none) :=
  ⟨by decide, (c9_update_unmatched_returns_none_no_insertion c9_store "Border" "9.9.9.9"
      [("state", Val.str "down")] (by decide)).1⟩

/-- C3 natural key for the failing input. -/
def c3_match : PropMap := [("routerid", Val.str "1.1.1.1")]

/-- C3 properties, carrying the natural key and the fresh client-side
UUID of one get_or_create call. -/
def c3_props (u : String) : PropMap :=
  [("routerid", Val.str "1.1.1.1"), ("state", Val.str "unknown"), ("uid", Val.str u)]

/-- C3: Node.get_or_create raises TypeError on every call (the keyword
`match` does not exist on create_node), so the claimed idempotent upsert
never returns an entity; the store operation it meant to reach,
create_node, invoked directly with the same arguments twice (fresh UUID
each call), does yield the same store-assigned uid — the internal node
id — on the create branch and again on the match branch. -/
theorem c3_get_or_create_raises_but_store_uid_stable :
    (Node_get_or_create Store.empty c3_match ["Border", "Router"] (c3_props "uuid-1")).2
      = .error (.typeError "create_node() got an unexpected keyword argument match")
    ∧ ((create_node Store.empty c3_match ["Border", "Router"] (c3_props "uuid-1")).2.map
        (fun nd => pget nd.props "uid")) = some (some (Val.num 0))
    ∧ ((create_node (create_node Store.empty c3_match ["Border", "Router"] (c3_props "uuid-1")).1
          c3_match ["Border", "Router"] (c3_props "uuid-2")).2.map
        (fun nd => pget nd.props "uid")) = some (some (Val.num 0)) :=
  ⟨by rfl, by decide, by decide⟩

/-- C6 first message: router_up for 1.1.1.1 in the documented wire format
(no state field). -/
def c6_msg_up : PropMap :=
  [("msg_type", Val.str "router_up"), ("routerid", Val.str "1.1.1.1")]

/-- C6 second message: router_down for the same router. -/
def c6_msg_down : PropMap :=
  [("msg_type", Val.str "router_down"), ("routerid", Val.str "1.1.1.1")]

/-- C6: system state after the router_up message on connection 5. -/
def c6_s1 : Sys := process_msg Sys.init 5 c6_msg_up

/-- C6: system state after the subsequent router_down on the same
connection. -/
def c6_s2 : Sys := process_msg c6_s1 5 c6_msg_down

/-- C6: the scenario fails on the code. The first router_up stores
nothing (router_register crashes in Border.get_or_create with the keyword
TypeError, which also skips the connection binding), so no Router entity
with state up exists; the router_down then matches nothing, changes no
state, and emits zero RouterDown events. Moreover the kwargs
router_register builds would have stored state unknown, not up, even with
the store call fixed. -/
theorem c6_router_up_down_scenario_stores_nothing :
    c6_s1.store.nodes = [] ∧ c6_s1.conns = []
    ∧ c6_s2.store.nodes = [] ∧ c6_s2.conns = [("1.1.1.1", none)]
    ∧ c6_s2.events = []
    ∧ pget (router_register_kwargs (collect_attrs c6_msg_up)) "state"
        = some (Val.str "unknown") :=
  ⟨by decide, by decide, by decide, by decide, by decide, by decide⟩

/-- C5: a handler body that raises. -/
def c5_bad_handler : Ev → Except PyErr Unit := fun _ => .error (.valueError "boom" (Val.num 0))

/-- C5: a handler body that returns normally. -/
def c5_good_handler : Ev → Except PyErr Unit := fun _ => .ok ()

/-- C5: two handlers registered for EventRouterDown on one application. -/
def c5_handlers : List Handler :=
  [("EventRouterDown", 0, c5_bad_handler), ("EventRouterDown", 1, c5_good_handler)]

/-- C5: a concrete EventRouterDown. -/
def c5_ev : Ev := Ev.routerDown ⟨0, [], []⟩

/-- C5: the claim fails on the code. With two events queued and a raising
handler, the event loop stops at the exception: it re-raises it wrapped
(`raise Exception(e)`), the handler registered after the raising one never
runs, and the second event is left unprocessed — the loop neither logs nor
continues. -/
theorem c5_handler_exception_terminates_event_loop :
    event_loop c5_handlers [c5_ev, c5_ev]
      = ([0], [c5_ev], .error (.wrapped (.valueError "boom" (Val.num 0)))) := by
  rfl

/-- C7: for every application list (with the distinct names AppManager
guarantees), sender and event, when no observer queue is full, emitting
the event delivers one copy to the inbound queue of exactly the
applications registered as observers of the event class — every other
application whose handlers cover the class — and touches no other queue;
the sender never observes itself, so its own queue is unchanged. -/
theorem c7_send_event_delivers_to_exactly_observers (apps : List App) (sender : String)
    (ev : Ev)
    (h : ∀ b ∈ apps, is_observer sender (ev_cls ev) b = true → b.queue.length < 512) :
    send_event_to_observers apps sender ev
      = (apps.map (fun b =>
          if is_observer sender (ev_cls ev) b then { b with queue := b.queue ++ [ev] }
          else b),
         .ok ()) := by
  induction apps with
  | nil => rfl
  | cons b rest ih =>
      have hrest : ∀ x ∈ rest, is_observer sender (ev_cls ev) x = true →
          x.queue.length < 512 :=
        fun x hx => h x (List.mem_cons_of_mem _ hx)
      by_cases hb : is_observer sender (ev_cls ev) b = true
      · have hq : b.queue.length < 512 := h b (List.mem_cons_self _ _) hb
        simp [send_event_to_observers, hb, put_nowait, hq, ih hrest]
      · simp [send_event_to_observers, hb, ih hrest]

/-- C7 witness event. -/
def c7_ev : Ev := Ev.routerUp ⟨0, [], []⟩

/-- C7 witness applications: the sender itself handles the class (but is
excluded by name), one observer handles it, one application does not. -/
def c7_apps : List App :=
  [⟨"topo_manager", ["EventRouterUp"], []⟩,
   ⟨"app_b", ["EventRouterUp"], []⟩,
   ⟨"app_c", ["EventRouterDown"], []⟩]

/-- C7 witness: delivery on the concrete application list. -/
theorem c7_send_event_witness :
    (∀ b ∈ c7_apps, is_observer "topo_manager" (ev_cls c7_ev) b = true →
        b.queue.length < 512)
    ∧ send_event_to_observers c7_apps "topo_manager" c7_ev
        = (c7_apps.map (fun b =>
            if is_observer "topo_manager" (ev_cls c7_ev) b then
              { b with queue := b.queue ++ [c7_ev] }
            else b),
           .ok ()) :=
  ⟨by decide, c7_send_event_delivers_to_exactly_observers c7_apps "topo_manager" c7_ev
      (by decide)⟩

/-- C9 counterexample: for edge kinds the claim fails — Route.update on a
natural key matching nothing (empty store) raises TypeError instead of
returning None, because Edge.update passes its dst match dict into the
kind parameter of update_link, which then concatenates a string with a
dict. -/
theorem c9_edge_update_raises_type_error :
    Route_update Store.empty (Val.str "10.0.0.1") (Val.str "1.0.0.0/24")
        [("state", Val.str "down")]
      = (Store.empty, .error (.typeError "can only concatenate str (not dict) to str")) := by
  rfl
